import Mathlib

/-!
Verification of the commodities pipeline core: the Bloomberg availability
gate and task declarations of `dodo.py`, and the coverage validator
`_warn_on_sparse_series` of `src/pull_bbg_commodities_basis.py`.

Python strings are modelled through their code-point lists; `str.lower`
is modelled per character by `Char.toLower` (ASCII case mapping, which is
what the code relies on) and `str.strip` by dropping whitespace from both
ends.  Panels (pandas data frames) are modelled as a list of rows, each a
date (`none` for a non-coercible date, pandas NaT) together with one
optional rational per column; column labels are either flat strings or
two-level (ticker, field) pairs, mirroring the two layouts the validator
accepts.
-/

namespace Commodities

/-! ### Python string primitives -/

/-- Model of Python `str.lower()`: lowercase every character (ASCII case map). -/
def pyLower (s : String) : String :=
  ⟨s.data.map Char.toLower⟩

/-- Characters stripped by Python `str.strip()` (ASCII whitespace). -/
def pySpace (c : Char) : Bool :=
  decide (c.toNat ∈ [32, 9, 10, 13, 11, 12])

/-- Strip `pySpace` characters from both ends of a character list. -/
def pyStripList (l : List Char) : List Char :=
  ((l.dropWhile pySpace).reverse.dropWhile pySpace).reverse

/-- Model of Python `str.strip()`. -/
def pyStrip (s : String) : String :=
  ⟨pyStripList s.data⟩

/-- The normalisation `response.lower().strip()` applied by the prompt in
`_check_bloomberg_terminal` (dodo.py line 35). -/
def pyNormalize (s : String) : String :=
  pyStrip (pyLower s)

/-! ### The Bloomberg availability gate (dodo.py, `_check_bloomberg_terminal`) -/

/-- Tri-state gate outcome: the source function returns `True` (available),
`False` (unavailable) or raises `SystemExit` (abort). -/
inductive GateDecision
  | available
  | unavailable
  | abort
deriving DecidableEq, Repr

/-- Responses that raise `SystemExit` in dodo.py line 36. -/
def negativeResponses : List String := ["n", "no", "q", "quit"]

/-- Responses that enable the pull in dodo.py line 38. -/
def affirmativeResponses : List String := ["y", "yes"]

/-- The interactive branch of `_check_bloomberg_terminal`: normalise the
operator response and map it to a gate decision. -/
def gateFromResponse (response : String) : GateDecision :=
  let r := pyNormalize response
  if r ∈ negativeResponses then .abort
  else if r ∈ affirmativeResponses then .available
  else .unavailable

/-- Model of `os.environ.get(var, "").lower() in ("true", "1", "yes")`;
`none` is an unset variable. -/
def envTruthy (v : Option String) : Bool :=
  pyLower (v.getD "") ∈ (["true", "1", "yes"] : List String)

/-- `_check_bloomberg_terminal` (dodo.py lines 17-42): consult
`SKIP_BLOOMBERG`, then `BLOOMBERG_TERMINAL_OPEN`, then prompt. -/
def check_bloomberg_terminal (skipBloomberg bloombergTerminalOpen : Option String)
    (response : String) : GateDecision :=
  if envTruthy skipBloomberg then .unavailable
  else if envTruthy bloombergTerminalOpen then .available
  else gateFromResponse response

/-- Modelled from the spec: the process-level outcome of resolving the gate
(section 4.2 and section 7 of the spec).  The scheduling engine (doit) is
not part of the repository sources; per the spec, `GateAbort` terminates
the run with a non-zero exit before any task executes, while any other
decision lets the run proceed. -/
structure RunOutcome where
  executedTasks : List String
  exitNonZero : Bool
deriving DecidableEq, Repr

/-- Modelled from the spec: run the pipeline under a resolved gate decision
(the doit engine itself is outside the repository sources).  `abort`
executes nothing and exits non-zero; otherwise the planned tasks run and
the exit code reflects task failures. -/
def runUnderGate (d : GateDecision) (plannedTasks : List String)
    (anyTaskFailed : Bool) : RunOutcome :=
  match d with
  | .abort => { executedTasks := [], exitNonZero := true }
  | _ => { executedTasks := plannedTasks, exitNonZero := anyTaskFailed }

/-! ### Panels and the coverage validator
(`src/pull_bbg_commodities_basis.py`, `_warn_on_sparse_series`) -/

/-- A column label: flat string name or two-level (ticker, field) pair. -/
inductive ColLabel
  | flat (name : String)
  | pair (ticker field : String)
deriving DecidableEq, Repr

/-- A pulled panel.  `isMulti` mirrors `isinstance(df.columns, pd.MultiIndex)`;
each row is a date (`none` models pandas NaT after `errors="coerce"`)
together with one optional value per column (`none` is a null cell). -/
structure Panel where
  isMulti : Bool
  cols : List ColLabel
  rows : List (Option Int × List (Option ℚ))
deriving DecidableEq, Repr

/-- The mask `(date_values >= start_ts) & (date_values <= end_ts)` for one
row; NaT compares false on both sides. -/
def inRangeRow (startTs endTs : Int) (r : Option Int × List (Option ℚ)) : Bool :=
  match r.1 with
  | none => false
  | some d => decide (startTs ≤ d ∧ d ≤ endTs)

/-- The rows selected by `df.loc[in_range, ...]`. -/
def inRangeRows (df : Panel) (startTs endTs : Int) :
    List (Option Int × List (Option ℚ)) :=
  df.rows.filter (inRangeRow startTs endTs)

/-- The column label expected for a requested (ticker, field) pair: the
tuple `(t, fld)` for a MultiIndex panel, the string `f"{t}_{fld}"` (braces
elided) otherwise. -/
def expectedKey (isMulti : Bool) (ticker field : String) : ColLabel :=
  if isMulti then .pair ticker field else .flat (ticker ++ "_" ++ field)

/-- The nested iteration `for t in tickers for fld in fields`. -/
def pairsOf (tickers fields : List String) : List (String × String) :=
  tickers.flatMap (fun t => fields.map (fun f => (t, f)))

/-- One step of Python dict construction: a repeated key overwrites the
stored value in place, a new key is appended. -/
def dictInsert {α β : Type} [DecidableEq α] (k : α) (v : β) :
    List (α × β) → List (α × β)
  | [] => [(k, v)]
  | (k', v') :: rest =>
    if k' = k then (k', v) :: rest else (k', v') :: dictInsert k v rest

/-- Python dict comprehension over a key/value list: insertion order with
overwrite-on-duplicate semantics. -/
def buildDict {α β : Type} [DecidableEq α] (l : List (α × β)) : List (α × β) :=
  l.foldl (fun acc kv => dictInsert kv.1 kv.2 acc) []

/-- `expected_cols_flat` / `expected_cols_multi`: the dict from expected
column label to requested (ticker, field) pair. -/
def expectedCols (isMulti : Bool) (tickers fields : List String) :
    List (ColLabel × String × String) :=
  buildDict ((pairsOf tickers fields).map (fun p => (expectedKey isMulti p.1 p.2, p)))

/-- The per-pair outcome of the validator.  `emptyData` is the
empty-panel warning, `missingCol` the missing-column warning, `outOfRange`
the no-rows-in-range warning, `lowCoverage` the low-coverage warning with
its ratio; `ok` records that no warning is emitted for the pair. -/
inductive CovStatus
  | emptyData
  | missingCol
  | outOfRange
  | lowCoverage (ratio : ℚ)
  | ok (ratio : ℚ)
deriving DecidableEq, Repr

/-- Status is one of the two warnings the spec labels `missing`. -/
def CovStatus.isMissing : CovStatus → Bool
  | .emptyData => true
  | .missingCol => true
  | _ => false

/-- Status is the low-coverage warning. -/
def CovStatus.isLowCoverage : CovStatus → Bool
  | .lowCoverage _ => true
  | _ => false

/-- Status is `ok` (no warning emitted). -/
def CovStatus.isOk : CovStatus → Bool
  | .ok _ => true
  | _ => false

/-- Status is the out-of-range warning. -/
def CovStatus.isOutOfRange : CovStatus → Bool
  | .outOfRange => true
  | _ => false

/-- Position of an expected column among the panel columns (`None` models
`key not in df.columns`). -/
def colIdx (df : Panel) (key : ColLabel) : Option Nat :=
  df.cols.findIdx? (fun c => decide (c = key))

/-- The in-range cells of column `i`: `df.loc[in_range, key]`.  A row
shorter than the column list reads as null. -/
def seriesVals (df : Panel) (startTs endTs : Int) (i : Nat) : List (Option ℚ) :=
  (inRangeRows df startTs endTs).map (fun r => r.2.getD i none)

/-- `series.notna().sum()`. -/
def countNonNull (vals : List (Option ℚ)) : Nat :=
  (vals.filter Option.isSome).length

/-- `coverage = (non_null / total) if total else 0.0`, over exact
rationals. -/
def coverageOf (nonNull total : Nat) : ℚ :=
  if total = 0 then 0 else (nonNull : ℚ) / (total : ℚ)

/-- The coverage ratio computed for the column at position `i`:
`coverage = (non_null / total) if total else 0.0` over the in-range
cells. -/
def seriesCoverage (df : Panel) (startTs endTs : Int) (i : Nat) : ℚ :=
  coverageOf (countNonNull (seriesVals df startTs endTs i))
    (seriesVals df startTs endTs i).length

/-- The loop body of `_warn_on_sparse_series` for one expected column:
missing-column warning when absent, otherwise the coverage comparison
against the threshold. -/
def evalPair (df : Panel) (startTs endTs : Int) (threshold : ℚ)
    (key : ColLabel) : CovStatus :=
  match colIdx df key with
  | none => .missingCol
  | some i =>
    if seriesCoverage df startTs endTs i < threshold then
      .lowCoverage (seriesCoverage df startTs endTs i)
    else .ok (seriesCoverage df startTs endTs i)

/-- `_warn_on_sparse_series` (lines 29-108): the per-pair outcomes in
emission order.  Empty panel: empty-data warning per (ticker, field) pair.
No rows in the requested range: out-of-range warning per pair.  Otherwise
each expected column (dict order) is evaluated individually. -/
def warn_on_sparse_series (df : Panel) (tickers fields : List String)
    (startTs endTs : Int) (threshold : ℚ) :
    List ((String × String) × CovStatus) :=
  if df.rows.length = 0 then
    (pairsOf tickers fields).map (fun p => (p, .emptyData))
  else if (inRangeRows df startTs endTs).length = 0 then
    (pairsOf tickers fields).map (fun p => (p, .outOfRange))
  else
    (expectedCols df.isMulti tickers fields).map
      (fun e => (e.2, evalPair df startTs endTs threshold e.1))

/-- The default `coverage_threshold: float = 0.7`. -/
def defaultCoverageThreshold : ℚ := 7 / 10

/-- The expected column of a requested pair is present in the panel. -/
def pairPresent (df : Panel) (p : String × String) : Bool :=
  (colIdx df (expectedKey df.isMulti p.1 p.2)).isSome

/-- The expected column of a requested pair is absent from the panel
(`key not in df.columns`). -/
def pairAbsent (df : Panel) (p : String × String) : Bool :=
  (colIdx df (expectedKey df.isMulti p.1 p.2)).isNone

/-- The coverage ratio of a requested pair (zero when its column is
absent). -/
def pairCoverage (df : Panel) (startTs endTs : Int) (p : String × String) : ℚ :=
  match colIdx df (expectedKey df.isMulti p.1 p.2) with
  | none => 0
  | some i => seriesCoverage df startTs endTs i

/-! ### The futures pull (`pull_commodity_futures`) -/

/-- The ticker list of `pull_commodity_futures`. -/
def commodity_futures_tickers : List String := [
  "CO1 Comdty", "CO2 Comdty", "CO3 Comdty",
  "QS1 Comdty", "QS2 Comdty", "QS3 Comdty",
  "CL1 Comdty", "CL2 Comdty", "CL3 Comdty",
  "RB1 Comdty", "RB2 Comdty", "RB3 Comdty",
  "XB1 Comdty", "XB2 Comdty", "XB3 Comdty",
  "HO1 Comdty", "HO2 Comdty", "HO3 Comdty",
  "NG1 Comdty", "NG2 Comdty", "NG3 Comdty",
  "HU1 Comdty", "HU2 Comdty", "HU3 Comdty",
  "CT1 Comdty", "CT2 Comdty", "CT3 Comdty",
  "KC1 Comdty", "KC2 Comdty", "KC3 Comdty",
  "CC1 Comdty", "CC2 Comdty", "CC3 Comdty",
  "SB1 Comdty", "SB2 Comdty", "SB3 Comdty",
  "LB1 Comdty", "LB2 Comdty", "LB3 Comdty",
  "O 1 Comdty", "O 2 Comdty", "O 3 Comdty",
  "JO1 Comdty", "JO2 Comdty", "JO3 Comdty",
  "RR1 Comdty", "RR2 Comdty", "RR3 Comdty",
  "SM1 Comdty", "SM2 Comdty", "SM3 Comdty",
  "WC1 Comdty", "WC2 Comdty", "WC3 Comdty",
  "S 1 Comdty", "S 2 Comdty", "S 3 Comdty",
  "KW1 Comdty", "KW2 Comdty", "KW3 Comdty",
  "C 1 Comdty", "C 2 Comdty", "C 3 Comdty",
  "W 1 Comdty", "W 2 Comdty", "W 3 Comdty",
  "LH1 Comdty", "LH2 Comdty", "LH3 Comdty",
  "FC1 Comdty", "FC2 Comdty", "FC3 Comdty",
  "LC1 Comdty", "LC2 Comdty", "LC3 Comdty",
  "AL1 Comdty", "AL2 Comdty", "AL3 Comdty",
  "HG1 Comdty", "HG2 Comdty", "HG3 Comdty",
  "GC1 Comdty", "GC2 Comdty", "GC3 Comdty",
  "SI1 Comdty", "SI2 Comdty", "SI3 Comdty",
  "PA1 Comdty", "PA2 Comdty", "PA3 Comdty",
  "PL1 Comdty", "PL2 Comdty", "PL3 Comdty"]

/-- Flatten one two-level label to the flat naming convention. -/
def flattenLabel : ColLabel → ColLabel
  | .pair t f => .flat (t ++ "_" ++ f)
  | .flat n => .flat n

/-- pandas `df.empty`: some axis has length zero. -/
def panelEmpty (df : Panel) : Bool :=
  df.rows.length = 0 || df.cols.length = 0

/-- The column normalisation of `pull_commodity_futures`:
`if not df.empty and isinstance(df.columns, pd.MultiIndex)` flatten the
column labels (the accompanying `reset_index` is the identity here since
a `Panel` already carries its dates per row). -/
def flattenPanel (df : Panel) : Panel :=
  if !panelEmpty df && df.isMulti then
    { isMulti := false, cols := df.cols.map flattenLabel, rows := df.rows }
  else df

/-- `pull_commodity_futures` (lines 111-175), with the Bloomberg response
`raw` as input: normalise columns, run the validator with the default
threshold, and return the panel unchanged together with the advisory
outcomes. -/
def pull_commodity_futures (raw : Panel) (startTs endTs : Int) :
    Panel × List ((String × String) × CovStatus) :=
  let df := flattenPanel raw
  (df, warn_on_sparse_series df commodity_futures_tickers ["PX_LAST"]
    startTs endTs defaultCoverageThreshold)

/-! ### Task declarations (dodo.py) -/

/-- One entry of an `actions` list: a shell command or a Python callable. -/
inductive Action
  | cmd (command : String)
  | callable (name : String)
deriving DecidableEq, Repr

/-- The fields of a doit task dictionary used by this build file. -/
structure TaskDecl where
  actions : List Action
  taskDep : List String := []
  fileDep : List String := []
  targets : List String := []
  verbosity : Nat := 1
deriving DecidableEq, Repr

/-- `task_config`. -/
def task_config (dataDir outputDir : String) : TaskDecl :=
  { actions := [.callable "create_dirs"],
    targets := [dataDir, outputDir],
    verbosity := 2 }

/-- `task_pull_wrds_futures`. -/
def task_pull_wrds_futures : TaskDecl :=
  { actions := [.cmd "python src/pull_wrds_futures.py"],
    verbosity := 2,
    taskDep := ["config"] }

/-- `task_pull_bbg_active_commodities`, as a function of the module-level
`BLOOMBERG_AVAILABLE` flag. -/
def task_pull_bbg_active_commodities (bloombergAvailable : Bool) : TaskDecl :=
  if !bloombergAvailable then
    { actions := [],
      verbosity := 2,
      taskDep := ["config"] }
  else
    { actions := [.cmd "python src/pull_bbg_active_commodities.py"],
      verbosity := 2,
      taskDep := ["config"] }

/-- `task_pull_bbg_commodities_basis`, as a function of
`BLOOMBERG_AVAILABLE`. -/
def task_pull_bbg_commodities_basis (bloombergAvailable : Bool) : TaskDecl :=
  if !bloombergAvailable then
    { actions := [],
      verbosity := 2,
      taskDep := ["config"] }
  else
    { actions := [.cmd "python src/pull_bbg_commodities_basis.py"],
      verbosity := 2,
      taskDep := ["config"] }

/-- `task_pull_hkm`. -/
def task_pull_hkm : TaskDecl :=
  { actions := [.cmd "python src/pull_he_kelly_manela.py"],
    verbosity := 2,
    taskDep := ["config"] }

/-- `task_format_hkm`. -/
def task_format_hkm : TaskDecl :=
  { actions := [.cmd "python src/create_hkm_datasets.py"],
    verbosity := 2,
    taskDep := ["pull_hkm"] }

/-- `task_calc`. -/
def task_calc : TaskDecl :=
  { actions := [.cmd "python src/create_ftsfr_datasets.py"],
    verbosity := 2,
    taskDep := ["pull_bbg_commodities_basis", "format_hkm"] }

/-- `jupyter_execute_notebook`. -/
def jupyter_execute_notebook (notebookPath : String) : String :=
  "jupyter nbconvert --execute --to notebook --ClearMetadataPreprocessor.enabled=True --inplace "
    ++ notebookPath

/-- `jupyter_to_html`. -/
def jupyter_to_html (notebookPath outputDir : String) : String :=
  "jupyter nbconvert --to html --output-dir=" ++ outputDir ++ " " ++ notebookPath

/-- The `mv` helper: platform-dependent move command. -/
def mvCommand (isNix : Bool) (fromPath toPath : String) : String :=
  if isNix then "mv " ++ fromPath ++ " " ++ toPath
  else "move " ++ fromPath ++ " " ++ toPath

/-- The registered notebooks (`notebook_tasks`): name and source path. -/
def notebook_tasks : List (String × String) :=
  [("summary_commodities_ipynb", "./src/summary_commodities_ipynb.py")]

/-- Replace the `.py` suffix by `.ipynb` (`pyfile_path.with_suffix`). -/
def toIpynbPath (pyPath : String) : String :=
  (pyPath.dropRight 3) ++ ".ipynb"

/-- `task_run_notebooks`: the generator yields one named sub-task per
registered notebook. -/
def task_run_notebooks (outputDir : String) (isNix : Bool) :
    List (String × TaskDecl) :=
  notebook_tasks.map (fun nb =>
    let pyfilePath := nb.2
    let notebookPath := toIpynbPath nb.2
    (nb.1,
      { actions := [
          .cmd ("jupytext --to notebook --output " ++ notebookPath ++ " " ++ pyfilePath),
          .cmd (jupyter_execute_notebook notebookPath),
          .cmd (jupyter_to_html notebookPath outputDir),
          .cmd (mvCommand isNix notebookPath outputDir)],
        fileDep := [pyfilePath],
        targets := [outputDir ++ "/" ++ nb.1 ++ ".html"],
        taskDep := ["calc"] }))

/-- `task_generate_charts`. -/
def task_generate_charts (dataDir outputDir : String) : TaskDecl :=
  { actions := [.cmd "python src/generate_chart.py"],
    fileDep := ["src/generate_chart.py",
      dataDir ++ "/ftsfr_commodities_returns.parquet"],
    targets := [outputDir ++ "/commodities_cumulative_returns.html"],
    verbosity := 2,
    taskDep := ["calc"] }

/-- `task_generate_pipeline_site`. -/
def task_generate_pipeline_site (outputDir : String) : TaskDecl :=
  { actions := [.cmd "chartbook build -f"],
    fileDep := ["chartbook.toml", "./src/summary_commodities_ipynb.py",
      outputDir ++ "/commodities_cumulative_returns.html"],
    verbosity := 2,
    taskDep := ["run_notebooks", "generate_charts"] }

/-! ### Spec-modelled scheduler fragment -/

/-- Terminal execution statuses of the spec data model (section 3). -/
inductive TaskStatus
  | done
  | failed
  | skippedUpToDate
  | skippedGatedOff
  | skippedFailedDependency
deriving DecidableEq, Repr

/-- Modelled from the spec: step 2 of the Scheduler loop of section 4.1
(the scheduling engine, doit, is not part of the repository sources).  A
gated task under an `unavailable` gate is marked `skipped-gated-off` and
executes no actions; otherwise its declared actions run and it ends
`done` or `failed` with the action outcome. -/
def scheduleGatedTask (gate : GateDecision) (t : TaskDecl)
    (actionsSucceed : Bool) : TaskStatus × List Action :=
  if gate = .unavailable then (.skippedGatedOff, [])
  else if actionsSucceed then (.done, t.actions)
  else (.failed, t.actions)

/-- Modelled from the spec: the overall run status (section 7) is a
success exactly when no task ended `failed`. -/
def runOverallSuccess (statuses : List TaskStatus) : Bool :=
  statuses.all (fun st => st != TaskStatus.failed)

/-- The module-level `BLOOMBERG_AVAILABLE` boolean, as a function of the
gate decision: `_check_bloomberg_terminal` returns `True` only for
`available` (on `abort` it raises instead of returning). -/
def gateBool : GateDecision → Bool
  | .available => true
  | _ => false

/-! ### Concrete example panels -/

/-- A flat panel over nine of ten requested series: two in-range rows,
columns one to seven fully populated, columns eight and nine half
populated, the tenth requested column absent. -/
def scenarioPanel : Panel :=
  { isMulti := false,
    cols := [.flat "T1_PX_LAST", .flat "T2_PX_LAST", .flat "T3_PX_LAST",
      .flat "T4_PX_LAST", .flat "T5_PX_LAST", .flat "T6_PX_LAST",
      .flat "T7_PX_LAST", .flat "T8_PX_LAST", .flat "T9_PX_LAST"],
    rows := [
      (some 0, [some 1, some 1, some 1, some 1, some 1, some 1, some 1,
        some 1, some 1]),
      (some 1, [some 1, some 1, some 1, some 1, some 1, some 1, some 1,
        none, none])] }

/-- The ten requested series of the coverage scenario. -/
def scenarioTickers : List String :=
  ["T1", "T2", "T3", "T4", "T5", "T6", "T7", "T8", "T9", "T10"]

/-- A one-row panel whose only row is dated outside the requested range
and whose column set is empty. -/
def outOfRangePanel : Panel :=
  { isMulti := false, cols := [], rows := [(some 5, [])] }

/-- A panel with no rows at all. -/
def emptyPanel : Panel :=
  { isMulti := false, cols := [.flat "A_PX_LAST"], rows := [] }

/-! ### Helper lemmas: string normalisation -/

theorem toNat_char_ofNat_of_lt {n : Nat} (h : n < 55296) :
    (Char.ofNat n).toNat = n := by
  rw [Char.ofNat, dif_pos (Or.inl h)]
  rfl

theorem char_toLower_of_upper (c : Char) (h : c.toNat ≥ 65 ∧ c.toNat ≤ 90) :
    Char.toLower c = Char.ofNat (c.toNat + 32) := by
  show (if c.toNat ≥ 65 ∧ c.toNat ≤ 90 then Char.ofNat (c.toNat + 32) else c)
      = Char.ofNat (c.toNat + 32)
  rw [if_pos h]

theorem char_toLower_of_not_upper (c : Char) (h : ¬(c.toNat ≥ 65 ∧ c.toNat ≤ 90)) :
    Char.toLower c = c := by
  show (if c.toNat ≥ 65 ∧ c.toNat ≤ 90 then Char.ofNat (c.toNat + 32) else c) = c
  rw [if_neg h]

theorem char_toLower_toLower (c : Char) :
    (Char.toLower c).toLower = c.toLower := by
  by_cases h : c.toNat ≥ 65 ∧ c.toNat ≤ 90
  · have hv : (Char.toLower c).toNat = c.toNat + 32 := by
      rw [char_toLower_of_upper c h]
      exact toNat_char_ofNat_of_lt (by omega)
    exact char_toLower_of_not_upper _ (by rw [hv]; omega)
  · rw [char_toLower_of_not_upper c h]
    exact char_toLower_of_not_upper c h

theorem pySpace_toLower (c : Char) : pySpace (Char.toLower c) = pySpace c := by
  by_cases h : c.toNat ≥ 65 ∧ c.toNat ≤ 90
  · have hv : (Char.toLower c).toNat = c.toNat + 32 := by
      rw [char_toLower_of_upper c h]
      exact toNat_char_ofNat_of_lt (by omega)
    simp only [pySpace, hv]
    have h1 : ¬ (c.toNat + 32 ∈ [32, 9, 10, 13, 11, 12]) := by
      simp only [List.mem_cons, List.not_mem_nil, or_false]
      omega
    have h2 : ¬ (c.toNat ∈ [32, 9, 10, 13, 11, 12]) := by
      simp only [List.mem_cons, List.not_mem_nil, or_false]
      omega
    rw [decide_eq_false h1, decide_eq_false h2]
  · rw [char_toLower_of_not_upper c h]

theorem dropWhile_eq_self_of_head? {α : Type} (p : α → Bool) (l : List α)
    (h : ∀ x, l.head? = some x → p x = false) : l.dropWhile p = l := by
  cases l with
  | nil => rfl
  | cons a l => exact List.dropWhile_cons_of_neg (by simp [h a rfl])

theorem dropWhile_dropWhile {α : Type} (p : α → Bool) (l : List α) :
    (l.dropWhile p).dropWhile p = l.dropWhile p := by
  induction l with
  | nil => rfl
  | cons a l ih =>
    by_cases h : p a
    · rw [List.dropWhile_cons_of_pos h, ih]
    · rw [List.dropWhile_cons_of_neg h, List.dropWhile_cons_of_neg h]

theorem pyStripList_idem (l : List Char) :
    pyStripList (pyStripList l) = pyStripList l := by
  have hA : (pyStripList l).dropWhile pySpace = pyStripList l := by
    refine dropWhile_eq_self_of_head? _ _ (fun x hx => ?_)
    unfold pyStripList at hx
    rw [List.head?_reverse] at hx
    have hsplit : ((l.dropWhile pySpace).reverse.takeWhile pySpace)
        ++ ((l.dropWhile pySpace).reverse.dropWhile pySpace)
        = (l.dropWhile pySpace).reverse :=
      List.takeWhile_append_dropWhile _ _
    have hx2 : (l.dropWhile pySpace).reverse.getLast? = some x := by
      rw [← hsplit, List.getLast?_append, hx]
      rfl
    rw [List.getLast?_reverse] at hx2
    have h2 := List.head?_dropWhile_not pySpace l
    rw [hx2] at h2
    exact h2
  have hB : ((l.dropWhile pySpace).reverse.dropWhile pySpace).dropWhile pySpace
      = (l.dropWhile pySpace).reverse.dropWhile pySpace :=
    dropWhile_dropWhile _ _
  show (((pyStripList l).dropWhile pySpace).reverse.dropWhile pySpace).reverse
      = pyStripList l
  rw [hA]
  show ((((l.dropWhile pySpace).reverse.dropWhile pySpace).reverse).reverse.dropWhile
      pySpace).reverse = pyStripList l
  rw [List.reverse_reverse, hB]
  rfl

theorem pyStripList_map_toLower (l : List Char) :
    pyStripList (l.map Char.toLower) = (pyStripList l).map Char.toLower := by
  have hps : (fun c => pySpace (Char.toLower c)) = pySpace := funext pySpace_toLower
  unfold pyStripList
  have hps2 : pySpace ∘ Char.toLower = pySpace := funext pySpace_toLower
  simp only [List.dropWhile_map, ← List.map_reverse, hps2]


theorem pyLower_pyLower (s : String) : pyLower (pyLower s) = pyLower s := by
  unfold pyLower
  refine congrArg String.mk ?_
  simp only [List.map_map]
  exact List.map_congr_left (fun c _ => char_toLower_toLower c)

theorem pyLower_pyStrip_comm (s : String) :
    pyStrip (pyLower s) = pyLower (pyStrip s) := by
  unfold pyLower pyStrip
  exact congrArg String.mk (pyStripList_map_toLower s.data)

theorem pyStrip_pyStrip (s : String) : pyStrip (pyStrip s) = pyStrip s :=
  congrArg String.mk (pyStripList_idem s.data)

theorem pyNormalize_idem (s : String) :
    pyNormalize (pyNormalize s) = pyNormalize s := by
  show pyStrip (pyLower (pyStrip (pyLower s))) = pyStrip (pyLower s)
  have h1 : pyLower (pyStrip (pyLower s)) = pyStrip (pyLower (pyLower s)) :=
    (pyLower_pyStrip_comm _).symm
  rw [h1, pyLower_pyLower]
  exact pyStrip_pyStrip _

/-! ### Helper lemmas: the validator -/

theorem dictInsert_eq_append {α β : Type} [DecidableEq α] (k : α) (v : β)
    (acc : List (α × β)) (h : k ∉ acc.map Prod.fst) :
    dictInsert k v acc = acc ++ [(k, v)] := by
  induction acc with
  | nil => rfl
  | cons kv rest ih =>
    obtain ⟨k', v'⟩ := kv
    simp only [List.map_cons, List.mem_cons] at h
    push_neg at h
    obtain ⟨h1, h2⟩ := h
    show (if k' = k then (k', v) :: rest else (k', v') :: dictInsert k v rest)
        = ((k', v') :: rest) ++ [(k, v)]
    rw [if_neg (fun he : k' = k => h1 he.symm)]
    rw [ih h2]
    rfl

theorem foldl_dictInsert_eq_append {α β : Type} [DecidableEq α]
    (l acc : List (α × β)) (h : ((acc ++ l).map Prod.fst).Nodup) :
    l.foldl (fun acc kv => dictInsert kv.1 kv.2 acc) acc = acc ++ l := by
  induction l generalizing acc with
  | nil => simp
  | cons kv rest ih =>
    obtain ⟨k, v⟩ := kv
    rw [List.foldl_cons]
    have hk : k ∉ acc.map Prod.fst := by
      intro hmem
      rw [List.map_append] at h
      obtain ⟨-, -, hdisj⟩ := List.nodup_append.mp h
      exact hdisj hmem (by simp)
    rw [dictInsert_eq_append k v acc hk]
    have hassoc : (acc ++ [(k, v)]) ++ rest = acc ++ ((k, v) :: rest) := by
      simp
    rw [ih (acc ++ [(k, v)]) (by rw [hassoc]; exact h), hassoc]

theorem buildDict_eq_self {α β : Type} [DecidableEq α] (l : List (α × β))
    (h : (l.map Prod.fst).Nodup) : buildDict l = l := by
  unfold buildDict
  have := foldl_dictInsert_eq_append l [] (by simpa using h)
  simpa using this

theorem countP_or_disjoint {α : Type} (p q : α → Bool) (l : List α)
    (h : ∀ x ∈ l, ¬(p x = true ∧ q x = true)) :
    l.countP (fun x => p x || q x) = l.countP p + l.countP q := by
  induction l with
  | nil => rfl
  | cons a l ih =>
    have ha := h a (List.mem_cons_self a l)
    rw [List.countP_cons, List.countP_cons, List.countP_cons,
      ih (fun x hx => h x (List.mem_cons_of_mem a hx))]
    by_cases hp : p a = true <;> by_cases hq : q a = true <;>
      simp [hp, hq] at ha ⊢ <;> omega

theorem warn_branch_eval (df : Panel) (tickers fields : List String)
    (startTs endTs : Int) (threshold : ℚ)
    (h1 : df.rows.length ≠ 0) (h2 : (inRangeRows df startTs endTs).length ≠ 0)
    (hk : ((pairsOf tickers fields).map
      (fun p => expectedKey df.isMulti p.1 p.2)).Nodup) :
    warn_on_sparse_series df tickers fields startTs endTs threshold
      = (pairsOf tickers fields).map
          (fun p => (p, evalPair df startTs endTs threshold
            (expectedKey df.isMulti p.1 p.2))) := by
  unfold warn_on_sparse_series
  rw [if_neg h1, if_neg h2]
  unfold expectedCols
  rw [buildDict_eq_self]
  · rw [List.map_map]
    rfl
  · rw [List.map_map]
    exact hk

theorem evalPair_isMissing (df : Panel) (startTs endTs : Int) (threshold : ℚ)
    (p : String × String) :
    (evalPair df startTs endTs threshold
      (expectedKey df.isMulti p.1 p.2)).isMissing = pairAbsent df p := by
  unfold evalPair pairAbsent
  cases h : colIdx df (expectedKey df.isMulti p.1 p.2) with
  | none => rfl
  | some i =>
    show (if _ < _ then CovStatus.lowCoverage _ else CovStatus.ok _).isMissing
      = Option.isNone (some i)
    split <;> rfl

theorem evalPair_isLowCoverage (df : Panel) (startTs endTs : Int)
    (threshold : ℚ) (p : String × String) :
    (evalPair df startTs endTs threshold
        (expectedKey df.isMulti p.1 p.2)).isLowCoverage
      = (pairPresent df p
          && decide (pairCoverage df startTs endTs p < threshold)) := by
  unfold evalPair pairPresent pairCoverage
  cases h : colIdx df (expectedKey df.isMulti p.1 p.2) with
  | none => rfl
  | some i =>
    show (if _ < _ then CovStatus.lowCoverage _ else CovStatus.ok _).isLowCoverage
      = (Option.isSome (some i)
          && decide (seriesCoverage df startTs endTs i < threshold))
    by_cases hc : seriesCoverage df startTs endTs i < threshold
    · rw [if_pos hc]
      simp [hc, CovStatus.isLowCoverage]
    · rw [if_neg hc]
      simp [hc, CovStatus.isLowCoverage]

theorem evalPair_isOk (df : Panel) (startTs endTs : Int)
    (threshold : ℚ) (p : String × String) :
    (evalPair df startTs endTs threshold
        (expectedKey df.isMulti p.1 p.2)).isOk
      = (pairPresent df p
          && !decide (pairCoverage df startTs endTs p < threshold)) := by
  unfold evalPair pairPresent pairCoverage
  cases h : colIdx df (expectedKey df.isMulti p.1 p.2) with
  | none => rfl
  | some i =>
    show (if _ < _ then CovStatus.lowCoverage _ else CovStatus.ok _).isOk
      = (Option.isSome (some i)
          && !decide (seriesCoverage df startTs endTs i < threshold))
    by_cases hc : seriesCoverage df startTs endTs i < threshold
    · rw [if_pos hc]
      simp [hc, CovStatus.isOk]
    · rw [if_neg hc]
      simp [hc, CovStatus.isOk]

theorem evalPair_not_outOfRange (df : Panel) (startTs endTs : Int)
    (threshold : ℚ) (key : ColLabel) :
    (evalPair df startTs endTs threshold key).isOutOfRange = false := by
  unfold evalPair
  cases h : colIdx df key with
  | none => rfl
  | some i =>
    show (if _ < _ then CovStatus.lowCoverage _ else CovStatus.ok _).isOutOfRange
      = false
    split <;> rfl

/-! ### Gate claims -/

/-- C10: the interactive gate prompt normalises the operator response by
lowercasing and stripping surrounding whitespace before mapping it, so the
gate decision on any response equals the decision on its lowercased,
stripped form; in particular "  Y ", "yes" and "YES" all yield available
and "NO" aborts. -/
theorem claim_c10_response_normalisation :
    (∀ s : String, gateFromResponse s = gateFromResponse (pyNormalize s)) ∧
    gateFromResponse "  Y " = .available ∧
    gateFromResponse "yes" = .available ∧
    gateFromResponse "YES" = .available ∧
    gateFromResponse "NO" = .abort := by
  refine ⟨fun s => ?_, by decide, by decide, by decide, by decide⟩
  unfold gateFromResponse
  rw [pyNormalize_idem]

/-- C2: with neither override signal set, the prompt response maps as
follows after normalisation: affirmative yields available; the run aborts
exactly on a negative or quit-equivalent response, in which case no task
executes and the exit is non-zero; anything else, including the empty
default, yields unavailable. -/
theorem claim_c2_prompt_mapping (skipVar availVar : Option String)
    (response : String)
    (hskip : envTruthy skipVar = false) (havail : envTruthy availVar = false) :
    (pyNormalize response ∈ affirmativeResponses →
      check_bloomberg_terminal skipVar availVar response = .available) ∧
    (check_bloomberg_terminal skipVar availVar response = .abort ↔
      pyNormalize response ∈ negativeResponses) ∧
    (pyNormalize response ∉ affirmativeResponses →
      pyNormalize response ∉ negativeResponses →
      check_bloomberg_terminal skipVar availVar response = .unavailable) ∧
    (∀ plannedTasks anyFailed,
      (runUnderGate .abort plannedTasks anyFailed).executedTasks = [] ∧
      (runUnderGate .abort plannedTasks anyFailed).exitNonZero = true) ∧
    check_bloomberg_terminal skipVar availVar "" = .unavailable := by
  have hc : ∀ r : String, check_bloomberg_terminal skipVar availVar r
      = gateFromResponse r := by
    intro r
    unfold check_bloomberg_terminal
    rw [hskip, havail]
    simp
  refine ⟨?_, ?_, ?_, fun _ _ => ⟨rfl, rfl⟩, ?_⟩
  · intro h
    rw [hc]
    unfold gateFromResponse
    simp only [affirmativeResponses, List.mem_cons, List.not_mem_nil, or_false] at h
    rcases h with h | h <;> rw [h] <;> decide
  · rw [hc]
    unfold gateFromResponse
    by_cases hn : pyNormalize response ∈ negativeResponses
    · simp [hn]
    · simp only [hn, if_false, iff_false]
      split <;> simp
  · intro ha hn
    rw [hc]
    unfold gateFromResponse
    simp [hn, ha]
  · rw [hc]
    decide

/-- C3: a truthy (case-insensitive true/1/yes) force-skip variable decides
unavailable with no prompt; otherwise a truthy force-available variable
decides available with no prompt; force-skip wins when both are set; and
with neither truthy the gate falls through to the prompt.  Truthiness is
exactly membership of the lowercased value in true/1/yes. -/
theorem claim_c3_override_signals (skipVar availVar : Option String)
    (resp resp2 : String) :
    (envTruthy skipVar = true →
      check_bloomberg_terminal skipVar availVar resp = .unavailable ∧
      check_bloomberg_terminal skipVar availVar resp =
        check_bloomberg_terminal skipVar availVar resp2) ∧
    (envTruthy skipVar = false → envTruthy availVar = true →
      check_bloomberg_terminal skipVar availVar resp = .available ∧
      check_bloomberg_terminal skipVar availVar resp =
        check_bloomberg_terminal skipVar availVar resp2) ∧
    (envTruthy skipVar = false → envTruthy availVar = false →
      check_bloomberg_terminal skipVar availVar resp = gateFromResponse resp) ∧
    (∀ v : String, envTruthy (some v) = true ↔
      pyLower v ∈ (["true", "1", "yes"] : List String)) ∧
    (envTruthy (some "TRUE") = true ∧ envTruthy (some "tRuE") = true ∧
      envTruthy (some "1") = true ∧ envTruthy (some "YES") = true ∧
      envTruthy (some "Yes") = true ∧ envTruthy (some "0") = false ∧
      envTruthy (some "false") = false ∧ envTruthy (some "") = false ∧
      envTruthy none = false) := by
  refine ⟨?_, ?_, ?_, ?_, by decide⟩
  · intro h
    constructor <;> · unfold check_bloomberg_terminal; rw [h]; simp
  · intro hs ha
    constructor <;> · unfold check_bloomberg_terminal; rw [hs, ha]; simp
  · intro hs ha
    unfold check_bloomberg_terminal
    rw [hs, ha]
    simp
  · intro v
    simp [envTruthy]

/-! ### Task graph claims -/

/-- C9: the declared task graph wires the fixed macro-graph: every pull
task depends on config (the gated pulls in both gate states), format_hkm
depends on pull_hkm, calc depends on exactly the commodities-basis pull
and format_hkm, every run_notebooks sub-task and generate_charts depend
on calc, and the site task depends on run_notebooks and generate_charts. -/
theorem claim_c9_task_graph_wiring (dataDir outputDir : String) (isNix : Bool) :
    task_pull_wrds_futures.taskDep = ["config"] ∧
    (task_pull_bbg_active_commodities true).taskDep = ["config"] ∧
    (task_pull_bbg_active_commodities false).taskDep = ["config"] ∧
    (task_pull_bbg_commodities_basis true).taskDep = ["config"] ∧
    (task_pull_bbg_commodities_basis false).taskDep = ["config"] ∧
    task_pull_hkm.taskDep = ["config"] ∧
    task_format_hkm.taskDep = ["pull_hkm"] ∧
    task_calc.taskDep = ["pull_bbg_commodities_basis", "format_hkm"] ∧
    (task_run_notebooks outputDir isNix).map (fun sub => sub.2.taskDep)
      = [["calc"]] ∧
    (task_generate_charts dataDir outputDir).taskDep = ["calc"] ∧
    (task_generate_pipeline_site outputDir).taskDep
      = ["run_notebooks", "generate_charts"] :=
  ⟨rfl, rfl, rfl, rfl, rfl, rfl, rfl, rfl, rfl, rfl, rfl⟩

/-- C5: with the gate resolved unavailable, the two gated pull tasks are
declared with an empty action list while retaining their dependency on
config; the spec-modelled scheduler marks them skipped-gated-off,
executes zero of their actions, and the overall run is a success as long
as no other task failed. -/
theorem claim_c5_gated_tasks_noop (others : List TaskStatus)
    (h : ∀ st ∈ others, st ≠ TaskStatus.failed) (actionsSucceed : Bool) :
    (task_pull_bbg_active_commodities (gateBool .unavailable)).actions = [] ∧
    (task_pull_bbg_commodities_basis (gateBool .unavailable)).actions = [] ∧
    (task_pull_bbg_active_commodities (gateBool .unavailable)).taskDep
      = ["config"] ∧
    (task_pull_bbg_commodities_basis (gateBool .unavailable)).taskDep
      = ["config"] ∧
    (scheduleGatedTask .unavailable
      (task_pull_bbg_active_commodities (gateBool .unavailable))
      actionsSucceed).1 = .skippedGatedOff ∧
    (scheduleGatedTask .unavailable
      (task_pull_bbg_active_commodities (gateBool .unavailable))
      actionsSucceed).2 = [] ∧
    (scheduleGatedTask .unavailable
      (task_pull_bbg_commodities_basis (gateBool .unavailable))
      actionsSucceed).1 = .skippedGatedOff ∧
    (scheduleGatedTask .unavailable
      (task_pull_bbg_commodities_basis (gateBool .unavailable))
      actionsSucceed).2 = [] ∧
    runOverallSuccess (others ++ [TaskStatus.skippedGatedOff,
      TaskStatus.skippedGatedOff]) = true := by
  refine ⟨rfl, rfl, rfl, rfl, rfl, rfl, rfl, rfl, ?_⟩
  simp only [runOverallSuccess, List.all_append, List.all_cons, List.all_nil]
  have hothers : others.all (fun st => st != TaskStatus.failed) = true := by
    rw [List.all_eq_true]
    intro st hst
    simpa using h st hst
  simp [hothers]

/-- Witness for C5 at a concrete list of other task statuses. -/
theorem claim_c5_gated_tasks_noop_witness :
    (task_pull_bbg_active_commodities (gateBool .unavailable)).actions = [] ∧
    runOverallSuccess ([TaskStatus.done] ++ [TaskStatus.skippedGatedOff,
      TaskStatus.skippedGatedOff]) = true :=
  ⟨(claim_c5_gated_tasks_noop [TaskStatus.done] (by decide) true).1,
   (claim_c5_gated_tasks_noop [TaskStatus.done] (by decide)
     true).2.2.2.2.2.2.2.2⟩

/-- Witness for C2 at unset override variables and the response "no". -/
theorem claim_c2_prompt_mapping_witness :
    check_bloomberg_terminal none none "no" = .abort :=
  ((claim_c2_prompt_mapping none none "no" (by decide) (by decide)).2.1).2
    (by decide)

/-- Witness for C3 at concrete override values. -/
theorem claim_c3_override_signals_witness :
    check_bloomberg_terminal (some "1") (some "yes") "y" = .unavailable ∧
    check_bloomberg_terminal none (some "YES") "n" = .available :=
  ⟨((claim_c3_override_signals (some "1") (some "yes") "y" "x").1
      (by decide)).1,
   ((claim_c3_override_signals none (some "YES") "n" "x").2.1
      (by decide) (by decide)).1⟩

/-! ### Validator claims -/

/-- C6: on a panel with zero rows the validator emits one missing
(empty-data) report per requested pair and nothing else, for every date
range and threshold. -/
theorem claim_c6_empty_panel_short_circuit (df : Panel)
    (tickers fields : List String) (startTs endTs : Int) (threshold : ℚ)
    (h : df.rows = []) :
    warn_on_sparse_series df tickers fields startTs endTs threshold
      = (pairsOf tickers fields).map (fun p => (p, CovStatus.emptyData)) ∧
    (warn_on_sparse_series df tickers fields startTs endTs threshold).length
      = (pairsOf tickers fields).length ∧
    ∀ r ∈ warn_on_sparse_series df tickers fields startTs endTs threshold,
      r.2.isMissing = true := by
  have h0 : df.rows.length = 0 := by rw [h]; rfl
  have hmain : warn_on_sparse_series df tickers fields startTs endTs threshold
      = (pairsOf tickers fields).map (fun p => (p, CovStatus.emptyData)) := by
    unfold warn_on_sparse_series
    rw [if_pos h0]
  refine ⟨hmain, by rw [hmain, List.length_map], ?_⟩
  intro r hr
  rw [hmain] at hr
  obtain ⟨p, -, hp⟩ := List.mem_map.mp hr
  rw [← hp]
  rfl

/-- Witness for C6 on a concrete empty panel. -/
theorem claim_c6_empty_panel_short_circuit_witness :
    warn_on_sparse_series emptyPanel ["A"] ["PX_LAST"] 0 10 (7 / 10)
      = [(("A", "PX_LAST"), CovStatus.emptyData)] := by
  rw [(claim_c6_empty_panel_short_circuit emptyPanel ["A"] ["PX_LAST"]
    0 10 (7 / 10) rfl).1]
  decide

/-- C8: coverage validation is advisory: the panel a pull returns is the
normalised raw panel, a pure function of the Bloomberg response that does
not depend on the validator or its emissions. -/
theorem claim_c8_advisory_only (raw : Panel) (startTs endTs : Int) :
    (pull_commodity_futures raw startTs endTs).1 = flattenPanel raw ∧
    (pull_commodity_futures raw startTs endTs).2
      = warn_on_sparse_series (flattenPanel raw) commodity_futures_tickers
          ["PX_LAST"] startTs endTs defaultCoverageThreshold :=
  ⟨rfl, rfl⟩

/-- C4 as stated fails on the code: on a one-row panel whose row is dated
outside the requested range, a requested pair with an absent column is
reported out-of-range, not missing — the global range check precedes
column location. -/
theorem claim_c4_counterexample :
    outOfRangePanel.rows.length = 1 ∧
    colIdx outOfRangePanel
      (expectedKey outOfRangePanel.isMulti "AA" "PX_LAST") = none ∧
    warn_on_sparse_series outOfRangePanel ["AA"] ["PX_LAST"] 10 20 (7 / 10)
      = [(("AA", "PX_LAST"), CovStatus.outOfRange)] ∧
    (("AA", "PX_LAST"), CovStatus.missingCol) ∉
      warn_on_sparse_series outOfRangePanel ["AA"] ["PX_LAST"] 10 20 (7 / 10) := by
  refine ⟨rfl, rfl, by decide, by decide⟩

/-- C4 amended: a requested pair whose column is absent is reported
missing provided at least one panel row falls inside the range; when the
panel has rows but none in range, every pair — absent column or not — is
reported out-of-range instead. -/
theorem claim_c4_absent_column_missing (df : Panel)
    (tickers fields : List String) (startTs endTs : Int) (threshold : ℚ)
    (t f : String)
    (h1 : df.rows.length ≠ 0) (h2 : (inRangeRows df startTs endTs).length ≠ 0)
    (hk : ((pairsOf tickers fields).map
      (fun p => expectedKey df.isMulti p.1 p.2)).Nodup)
    (ht : t ∈ tickers) (hf : f ∈ fields)
    (habs : colIdx df (expectedKey df.isMulti t f) = none) :
    ((t, f), CovStatus.missingCol) ∈
      warn_on_sparse_series df tickers fields startTs endTs threshold ∧
    ∀ df2 : Panel, ∀ s2 e2 : Int, df2.rows.length ≠ 0 →
      (inRangeRows df2 s2 e2).length = 0 →
      warn_on_sparse_series df2 tickers fields s2 e2 threshold
        = (pairsOf tickers fields).map (fun p => (p, CovStatus.outOfRange)) := by
  constructor
  · rw [warn_branch_eval df tickers fields startTs endTs threshold h1 h2 hk]
    have hp : (t, f) ∈ pairsOf tickers fields := by
      unfold pairsOf
      rw [List.mem_flatMap]
      exact ⟨t, ht, List.mem_map.mpr ⟨f, hf, rfl⟩⟩
    refine List.mem_map.mpr ⟨(t, f), hp, ?_⟩
    unfold evalPair
    rw [habs]
  · intro df2 s2 e2 hr hz
    unfold warn_on_sparse_series
    rw [if_neg hr, if_pos hz]

/-- Witness for the amended C4 on the scenario panel, whose tenth
requested column is absent. -/
theorem claim_c4_absent_column_missing_witness :
    (("T10", "PX_LAST"), CovStatus.missingCol) ∈
      warn_on_sparse_series scenarioPanel scenarioTickers ["PX_LAST"]
        0 1 (7 / 10) :=
  (claim_c4_absent_column_missing scenarioPanel scenarioTickers ["PX_LAST"]
    0 1 (7 / 10) "T10" "PX_LAST" (by decide) (by decide) (by decide)
    (by decide) (by decide) (by decide)).1

theorem pairPresent_eq_not_absent (df : Panel) (p : String × String) :
    pairPresent df p = !pairAbsent df p := by
  unfold pairPresent pairAbsent
  cases colIdx df (expectedKey df.isMulti p.1 p.2) <;> rfl

theorem seriesCoverage_eq (df : Panel) (startTs endTs : Int) (i nn tot : Nat)
    (h1 : countNonNull (seriesVals df startTs endTs i) = nn)
    (h2 : (seriesVals df startTs endTs i).length = tot) :
    seriesCoverage df startTs endTs i = coverageOf nn tot := by
  unfold seriesCoverage
  rw [h1, h2]

theorem pairCoverage_eq (df : Panel) (startTs endTs : Int)
    (p : String × String) (i : Nat)
    (hc : colIdx df (expectedKey df.isMulti p.1 p.2) = some i) :
    pairCoverage df startTs endTs p = seriesCoverage df startTs endTs i := by
  unfold pairCoverage
  rw [hc]

/-- C7: for a pair whose column is present with at least one row in
range, the coverage ratio is the count of non-null in-range values over
the count of in-range rows, hence lies in the unit interval; low-coverage
is emitted exactly when the ratio is strictly below the threshold,
otherwise the pair is ok (equality with the threshold included); and the
default threshold is 7/10. -/
theorem claim_c7_coverage_ratio (df : Panel) (startTs endTs : Int)
    (threshold : ℚ) (key : ColLabel) (i : Nat)
    (hi : colIdx df key = some i)
    (h2 : (inRangeRows df startTs endTs).length ≠ 0) :
    seriesCoverage df startTs endTs i
      = (countNonNull (seriesVals df startTs endTs i) : ℚ)
        / ((seriesVals df startTs endTs i).length : ℚ) ∧
    0 ≤ seriesCoverage df startTs endTs i ∧
    seriesCoverage df startTs endTs i ≤ 1 ∧
    (evalPair df startTs endTs threshold key
        = CovStatus.lowCoverage (seriesCoverage df startTs endTs i)
      ↔ seriesCoverage df startTs endTs i < threshold) ∧
    (¬ seriesCoverage df startTs endTs i < threshold →
      evalPair df startTs endTs threshold key
        = CovStatus.ok (seriesCoverage df startTs endTs i)) ∧
    defaultCoverageThreshold = 7 / 10 := by
  have hlen : (seriesVals df startTs endTs i).length
      = (inRangeRows df startTs endTs).length := by
    unfold seriesVals
    rw [List.length_map]
  have htot : (seriesVals df startTs endTs i).length ≠ 0 := by
    rw [hlen]
    exact h2
  have hratio : seriesCoverage df startTs endTs i
      = (countNonNull (seriesVals df startTs endTs i) : ℚ)
        / ((seriesVals df startTs endTs i).length : ℚ) := by
    unfold seriesCoverage coverageOf
    rw [if_neg htot]
  have hnn : countNonNull (seriesVals df startTs endTs i)
      ≤ (seriesVals df startTs endTs i).length :=
    List.length_filter_le _ _
  have hpos : (0 : ℚ) < ((seriesVals df startTs endTs i).length : ℚ) := by
    exact_mod_cast Nat.pos_of_ne_zero htot
  refine ⟨hratio, ?_, ?_, ?_, ?_, rfl⟩
  · rw [hratio]
    exact div_nonneg (by positivity) (by positivity)
  · rw [hratio, div_le_one hpos]
    exact_mod_cast hnn
  · unfold evalPair
    rw [hi]
    show (if seriesCoverage df startTs endTs i < threshold then
        CovStatus.lowCoverage (seriesCoverage df startTs endTs i)
      else CovStatus.ok (seriesCoverage df startTs endTs i))
        = CovStatus.lowCoverage (seriesCoverage df startTs endTs i)
      ↔ seriesCoverage df startTs endTs i < threshold
    by_cases hc : seriesCoverage df startTs endTs i < threshold
    · rw [if_pos hc]
      simp [hc]
    · rw [if_neg hc]
      simp [hc]
  · intro hc
    unfold evalPair
    rw [hi]
    show (if seriesCoverage df startTs endTs i < threshold then
        CovStatus.lowCoverage (seriesCoverage df startTs endTs i)
      else CovStatus.ok (seriesCoverage df startTs endTs i))
        = CovStatus.ok (seriesCoverage df startTs endTs i)
    rw [if_neg hc]

/-- Witness for C7 on column eight of the scenario panel: coverage is
one half, which is below the default threshold, so low-coverage is
emitted. -/
theorem claim_c7_coverage_ratio_witness :
    seriesCoverage scenarioPanel 0 1 7 = 1 / 2 ∧
    evalPair scenarioPanel 0 1 (7 / 10) (ColLabel.flat "T8_PX_LAST")
      = CovStatus.lowCoverage (seriesCoverage scenarioPanel 0 1 7) := by
  have h := claim_c7_coverage_ratio scenarioPanel 0 1 (7 / 10)
    (ColLabel.flat "T8_PX_LAST") 7 (by decide) (by decide)
  have hval : seriesCoverage scenarioPanel 0 1 7 = 1 / 2 := by
    rw [seriesCoverage_eq scenarioPanel 0 1 7 1 2 (by decide) (by decide)]
    norm_num [coverageOf]
  exact ⟨hval, h.2.2.2.1.mpr (by rw [hval]; norm_num)⟩

/-- C1: on a panel with rows and in-range rows, requested against ten
pairs of which seven are fully covered in range, two have exactly half
coverage and one has an absent column, validation at threshold 7/10
yields one report per pair in request order: exactly one missing, two
low-coverage, seven ok and no out-of-range. -/
theorem claim_c1_coverage_scenario (df : Panel) (tickers fields : List String)
    (startTs endTs : Int)
    (h1 : df.rows.length ≠ 0) (h2 : (inRangeRows df startTs endTs).length ≠ 0)
    (hk : ((pairsOf tickers fields).map
      (fun p => expectedKey df.isMulti p.1 p.2)).Nodup)
    (hlen : (pairsOf tickers fields).length = 10)
    (hmiss : (pairsOf tickers fields).countP (fun p => pairAbsent df p) = 1)
    (hfull : (pairsOf tickers fields).countP (fun p => pairPresent df p
      && decide (pairCoverage df startTs endTs p = 1)) = 7)
    (hhalf : (pairsOf tickers fields).countP (fun p => pairPresent df p
      && decide (pairCoverage df startTs endTs p = 1 / 2)) = 2) :
    (warn_on_sparse_series df tickers fields startTs endTs (7 / 10)).map
      Prod.fst = pairsOf tickers fields ∧
    (warn_on_sparse_series df tickers fields startTs endTs (7 / 10)).countP
      (fun r => r.2.isMissing) = 1 ∧
    (warn_on_sparse_series df tickers fields startTs endTs (7 / 10)).countP
      (fun r => r.2.isLowCoverage) = 2 ∧
    (warn_on_sparse_series df tickers fields startTs endTs (7 / 10)).countP
      (fun r => r.2.isOk) = 7 ∧
    (warn_on_sparse_series df tickers fields startTs endTs (7 / 10)).countP
      (fun r => r.2.isOutOfRange) = 0 := by
  rw [warn_branch_eval df tickers fields startTs endTs (7 / 10) h1 h2 hk]
  have habsent_present : ∀ p : String × String, pairAbsent df p = true →
      pairPresent df p = false := by
    intro p hp
    rw [pairPresent_eq_not_absent, hp]
    rfl
  have hpresent_absent : ∀ p : String × String, pairPresent df p = true →
      pairAbsent df p = false := by
    intro p hp
    rw [pairPresent_eq_not_absent] at hp
    cases hq : pairAbsent df p
    · rfl
    · rw [hq] at hp
      exact absurd hp (by decide)
  have hBC : ∀ p : String × String,
      ¬((pairPresent df p && decide (pairCoverage df startTs endTs p = 1))
          = true ∧
        (pairPresent df p && decide (pairCoverage df startTs endTs p = 1 / 2))
          = true) := by
    intro p ⟨hb, hc⟩
    rw [Bool.and_eq_true, decide_eq_true_iff] at hb hc
    rw [hb.2] at hc
    exact absurd hc.2 (by norm_num)
  have hsum : (pairsOf tickers fields).countP (fun p =>
      (pairAbsent df p
        || (pairPresent df p && decide (pairCoverage df startTs endTs p = 1)))
      || (pairPresent df p
        && decide (pairCoverage df startTs endTs p = 1 / 2))) = 10 := by
    rw [countP_or_disjoint _ _ _ ?disj1]
    case disj1 =>
      intro p _ hcon
      obtain ⟨hab, hc⟩ := hcon
      rw [Bool.or_eq_true] at hab
      rcases hab with ha | hb
      · rw [Bool.and_eq_true] at hc
        rw [habsent_present p ha] at hc
        exact absurd hc.1 (by decide)
      · exact hBC p ⟨hb, hc⟩
    rw [countP_or_disjoint _ _ _ ?disj2]
    case disj2 =>
      intro p _ ⟨ha, hb⟩
      rw [Bool.and_eq_true] at hb
      rw [habsent_present p ha] at hb
      exact absurd hb.1 (by decide)
    rw [hmiss, hfull, hhalf]
  have hcases : ∀ p ∈ pairsOf tickers fields,
      (pairAbsent df p = true ∧ pairPresent df p = false) ∨
      (pairPresent df p = true ∧ pairCoverage df startTs endTs p = 1) ∨
      (pairPresent df p = true ∧ pairCoverage df startTs endTs p = 1 / 2) := by
    intro p hp
    have := (List.countP_eq_length.mp (hsum.trans hlen.symm)) p hp
    rw [Bool.or_eq_true, Bool.or_eq_true, Bool.and_eq_true, Bool.and_eq_true,
      decide_eq_true_iff, decide_eq_true_iff] at this
    rcases this with (ha | hb) | hc
    · exact Or.inl ⟨ha, habsent_present p ha⟩
    · exact Or.inr (Or.inl hb)
    · exact Or.inr (Or.inr hc)
  refine ⟨?_, ?_, ?_, ?_, ?_⟩
  · rw [List.map_map]
    have hfid : (Prod.fst ∘ fun p : String × String =>
        (p, evalPair df startTs endTs (7 / 10)
          (expectedKey df.isMulti p.1 p.2))) = id := rfl
    rw [hfid, List.map_id]
  · rw [List.countP_map]
    rw [List.countP_congr (fun p hp => ?_)]
    · exact hmiss
    · show (evalPair df startTs endTs (7 / 10)
          (expectedKey df.isMulti p.1 p.2)).isMissing = true
        ↔ pairAbsent df p = true
      rw [evalPair_isMissing]
  · rw [List.countP_map]
    rw [List.countP_congr (fun p hp => ?_)]
    · exact hhalf
    · show (evalPair df startTs endTs (7 / 10)
          (expectedKey df.isMulti p.1 p.2)).isLowCoverage = true
        ↔ (pairPresent df p
          && decide (pairCoverage df startTs endTs p = 1 / 2)) = true
      rw [evalPair_isLowCoverage]
      rcases hcases p hp with ⟨ha, hpr⟩ | ⟨hpr, hcov⟩ | ⟨hpr, hcov⟩
      · rw [hpr]
        simp
      · rw [hpr, hcov]
        norm_num
      · rw [hpr, hcov]
        norm_num
  · rw [List.countP_map]
    rw [List.countP_congr (fun p hp => ?_)]
    · exact hfull
    · show (evalPair df startTs endTs (7 / 10)
          (expectedKey df.isMulti p.1 p.2)).isOk = true
        ↔ (pairPresent df p
          && decide (pairCoverage df startTs endTs p = 1)) = true
      rw [evalPair_isOk]
      rcases hcases p hp with ⟨ha, hpr⟩ | ⟨hpr, hcov⟩ | ⟨hpr, hcov⟩
      · rw [hpr]
        simp
      · rw [hpr, hcov]
        norm_num
      · rw [hpr, hcov]
        norm_num
  · rw [List.countP_map]
    have hz : ∀ p ∈ pairsOf tickers fields,
        ((fun r : (String × String) × CovStatus => r.2.isOutOfRange) ∘
          fun p => (p, evalPair df startTs endTs (7 / 10)
            (expectedKey df.isMulti p.1 p.2))) p = true
          ↔ (fun _ => false) p = true := by
      intro p hp
      show (evalPair df startTs endTs (7 / 10)
        (expectedKey df.isMulti p.1 p.2)).isOutOfRange = true ↔ false = true
      rw [evalPair_not_outOfRange]
    rw [List.countP_congr hz, List.countP_false]
    rfl

/-- Witness for C1: the scenario panel against its ten requested pairs. -/
theorem claim_c1_coverage_scenario_witness :
    (warn_on_sparse_series scenarioPanel scenarioTickers ["PX_LAST"]
      0 1 (7 / 10)).countP (fun r => r.2.isMissing) = 1 ∧
    (warn_on_sparse_series scenarioPanel scenarioTickers ["PX_LAST"]
      0 1 (7 / 10)).countP (fun r => r.2.isLowCoverage) = 2 ∧
    (warn_on_sparse_series scenarioPanel scenarioTickers ["PX_LAST"]
      0 1 (7 / 10)).countP (fun r => r.2.isOk) = 7 := by
  have hfullcov : ∀ i : Nat, i < 7 →
      seriesCoverage scenarioPanel 0 1 i = 1 := by
    intro i hi
    interval_cases i <;>
      · rw [seriesCoverage_eq scenarioPanel 0 1 _ 2 2 (by decide) (by decide)]
        norm_num [coverageOf]
  have hhalfcov : ∀ i : Nat, i = 7 ∨ i = 8 →
      seriesCoverage scenarioPanel 0 1 i = 1 / 2 := by
    intro i hi
    rcases hi with hi | hi <;>
      · subst hi
        rw [seriesCoverage_eq scenarioPanel 0 1 _ 1 2 (by decide) (by decide)]
        norm_num [coverageOf]
  have hcov : ∀ k : Nat, ∀ t : String, k < 9 →
      colIdx scenarioPanel (expectedKey scenarioPanel.isMulti t "PX_LAST")
        = some k →
      pairCoverage scenarioPanel 0 1 (t, "PX_LAST")
        = seriesCoverage scenarioPanel 0 1 k := by
    intro k t _ hk
    exact pairCoverage_eq scenarioPanel 0 1 (t, "PX_LAST") k hk
  have e1 : pairCoverage scenarioPanel 0 1 ("T1", "PX_LAST") = 1 := by
    rw [hcov 0 "T1" (by omega) (by decide)]
    exact hfullcov 0 (by omega)
  have e2 : pairCoverage scenarioPanel 0 1 ("T2", "PX_LAST") = 1 := by
    rw [hcov 1 "T2" (by omega) (by decide)]
    exact hfullcov 1 (by omega)
  have e3 : pairCoverage scenarioPanel 0 1 ("T3", "PX_LAST") = 1 := by
    rw [hcov 2 "T3" (by omega) (by decide)]
    exact hfullcov 2 (by omega)
  have e4 : pairCoverage scenarioPanel 0 1 ("T4", "PX_LAST") = 1 := by
    rw [hcov 3 "T4" (by omega) (by decide)]
    exact hfullcov 3 (by omega)
  have e5 : pairCoverage scenarioPanel 0 1 ("T5", "PX_LAST") = 1 := by
    rw [hcov 4 "T5" (by omega) (by decide)]
    exact hfullcov 4 (by omega)
  have e6 : pairCoverage scenarioPanel 0 1 ("T6", "PX_LAST") = 1 := by
    rw [hcov 5 "T6" (by omega) (by decide)]
    exact hfullcov 5 (by omega)
  have e7 : pairCoverage scenarioPanel 0 1 ("T7", "PX_LAST") = 1 := by
    rw [hcov 6 "T7" (by omega) (by decide)]
    exact hfullcov 6 (by omega)
  have e8 : pairCoverage scenarioPanel 0 1 ("T8", "PX_LAST") = 1 / 2 := by
    rw [hcov 7 "T8" (by omega) (by decide)]
    exact hhalfcov 7 (Or.inl rfl)
  have e9 : pairCoverage scenarioPanel 0 1 ("T9", "PX_LAST") = 1 / 2 := by
    rw [hcov 8 "T9" (by omega) (by decide)]
    exact hhalfcov 8 (Or.inr rfl)
  have hpairs : pairsOf scenarioTickers ["PX_LAST"]
      = [("T1", "PX_LAST"), ("T2", "PX_LAST"), ("T3", "PX_LAST"),
        ("T4", "PX_LAST"), ("T5", "PX_LAST"), ("T6", "PX_LAST"),
        ("T7", "PX_LAST"), ("T8", "PX_LAST"), ("T9", "PX_LAST"),
        ("T10", "PX_LAST")] := by decide
  have p1 : pairPresent scenarioPanel ("T1", "PX_LAST") = true := by decide
  have p2 : pairPresent scenarioPanel ("T2", "PX_LAST") = true := by decide
  have p3 : pairPresent scenarioPanel ("T3", "PX_LAST") = true := by decide
  have p4 : pairPresent scenarioPanel ("T4", "PX_LAST") = true := by decide
  have p5 : pairPresent scenarioPanel ("T5", "PX_LAST") = true := by decide
  have p6 : pairPresent scenarioPanel ("T6", "PX_LAST") = true := by decide
  have p7 : pairPresent scenarioPanel ("T7", "PX_LAST") = true := by decide
  have p8 : pairPresent scenarioPanel ("T8", "PX_LAST") = true := by decide
  have p9 : pairPresent scenarioPanel ("T9", "PX_LAST") = true := by decide
  have p10 : pairPresent scenarioPanel ("T10", "PX_LAST") = false := by decide
  have hfull : (pairsOf scenarioTickers ["PX_LAST"]).countP
      (fun p => pairPresent scenarioPanel p
        && decide (pairCoverage scenarioPanel 0 1 p = 1)) = 7 := by
    rw [hpairs]
    simp only [List.countP_cons, List.countP_nil, e1, e2, e3, e4, e5, e6, e7,
      e8, e9, p1, p2, p3, p4, p5, p6, p7, p8, p9, p10, Bool.false_and,
      Bool.true_and]
    norm_num
  have hhalf : (pairsOf scenarioTickers ["PX_LAST"]).countP
      (fun p => pairPresent scenarioPanel p
        && decide (pairCoverage scenarioPanel 0 1 p = 1 / 2)) = 2 := by
    rw [hpairs]
    simp only [List.countP_cons, List.countP_nil, e1, e2, e3, e4, e5, e6, e7,
      e8, e9, p1, p2, p3, p4, p5, p6, p7, p8, p9, p10, Bool.false_and,
      Bool.true_and]
    norm_num
  have h := claim_c1_coverage_scenario scenarioPanel scenarioTickers
    ["PX_LAST"] 0 1 (by decide) (by decide) (by decide) (by decide)
    (by decide) hfull hhalf
  exact ⟨h.2.1, h.2.2.1, h.2.2.2.1⟩

end Commodities
